import Mathlib

/-!
# Verification of the tax-calculation core

A shallow embedding, in Lean 4, of the tax-calculation engine of the
repository (`src/core`): the progressive-bracket evaluator shared by the
federal and state calculators, the FICA (payroll) calculator, the state
calculator with its no-tax / flat-rate / progressive dispatch, the
timeframe converter, the orchestrating engine, and the embedded 2024 data
set.  Monetary values are `rust_decimal::Decimal` in the source, a
fixed-point decimal; they are modelled here as `ℚ`.  All additions,
subtractions, multiplications, `min`/`max` and comparisons performed by
the program on its data are exact in `Decimal`, as they are in `ℚ`; the
only inexact `Decimal` operation is division, which the program uses for
the various rate ratios carried in results, so `ℚ` is a faithful model up
to the final rounding of those ratios.
-/

namespace TaxCore

/-- Source `models/tax.rs` — the five IRS filing statuses. -/
inductive FilingStatus where
  | Single
  | MarriedFilingJointly
  | MarriedFilingSeparately
  | HeadOfHousehold
  | QualifyingWidower
  deriving DecidableEq, Repr

/-- Source `FilingStatus::as_str`, the key used in state bracket tables. -/
def FilingStatus.asStr : FilingStatus → String
  | .Single => "single"
  | .MarriedFilingJointly => "married_filing_jointly"
  | .MarriedFilingSeparately => "married_filing_separately"
  | .HeadOfHousehold => "head_of_household"
  | .QualifyingWidower => "qualifying_widower"

/-- Source `models/tax.rs` — a progressive bracket: floor, optional ceiling
(`none` = unbounded top bracket), marginal rate, precomputed cumulative
base tax at the floor. -/
structure TaxBracket where
  floor : ℚ
  ceiling : Option ℚ
  rate : ℚ
  base_tax : ℚ
  deriving DecidableEq, Repr

/-- Source `models/tax.rs` — one line of a user-visible bracket breakdown. -/
structure BracketAmount where
  floor : ℚ
  ceiling : Option ℚ
  rate : ℚ
  taxable_in_bracket : ℚ
  tax_paid : ℚ
  deriving DecidableEq, Repr

/-- Source `models/tax.rs` — result of the federal calculator. -/
structure FederalTaxResult where
  taxable_income : ℚ
  tax : ℚ
  marginal_rate : ℚ
  effective_rate : ℚ
  bracket_breakdown : List BracketAmount
  deriving DecidableEq, Repr

/-- Source `taxable_income.min(bracket.ceiling.unwrap_or(Decimal::MAX))`:
since every `Decimal` is `≤ Decimal::MAX`, capping at an absent ceiling
returns the income unchanged, exactly. -/
def minCeiling (income : ℚ) : Option ℚ → ℚ
  | none => income
  | some c => min income c

/-- The breakdown built by the `for bracket in &brackets` loop shared by
`FederalTaxCalculator::calculate` (federal.rs lines 42–60) and
`StateTaxCalculator::calculate_progressive` (state.rs lines 104–122):
for every bracket whose floor is strictly below the income, the portion
of income inside the bracket and the tax on that portion. -/
def bracketBreakdown (taxableIncome : ℚ) : List TaxBracket → List BracketAmount
  | [] => []
  | b :: rest =>
    if taxableIncome > b.floor then
      (if minCeiling taxableIncome b.ceiling - b.floor > 0 then
        [{ floor := b.floor, ceiling := b.ceiling, rate := b.rate,
           taxable_in_bracket := minCeiling taxableIncome b.ceiling - b.floor,
           tax_paid := (minCeiling taxableIncome b.ceiling - b.floor) * b.rate }]
       else []) ++ bracketBreakdown taxableIncome rest
    else bracketBreakdown taxableIncome rest

/-- The marginal-rate accumulator of the same loop: starts at `0.10` and
is overwritten by the rate of every bracket whose floor is below the
income. -/
def marginalRateLoop (taxableIncome : ℚ) : List TaxBracket → ℚ → ℚ
  | [], m => m
  | b :: rest, m =>
    marginalRateLoop taxableIncome rest (if taxableIncome > b.floor then b.rate else m)

/-- A bracket used only as the (unreachable when the list is non-empty)
fallback of `unwrap_or(&brackets[0])`. -/
def defaultBracket : TaxBracket := { floor := 0, ceiling := none, rate := 0, base_tax := 0 }

/-- Source `FederalTaxCalculator::calculate_with_base_tax` (federal.rs lines
77–86): find the last bracket whose floor is `≤` income by searching the
reversed list, falling back to the first bracket, and return
`base_tax + (income − floor) × rate`. -/
def calculateWithBaseTax (taxableIncome : ℚ) (brackets : List TaxBracket) : ℚ :=
  let bracket := (brackets.reverse.find? fun b => decide (taxableIncome ≥ b.floor)).getD
    (brackets.headD defaultBracket)
  bracket.base_tax + (taxableIncome - bracket.floor) * bracket.rate

/-- Source `FederalTaxCalculator::calculate` (federal.rs lines 20–73), with the
bracket list for the requested filing status and year already fetched
from the data provider. -/
def federalCalculate (brackets : List TaxBracket) (taxableIncome : ℚ) : FederalTaxResult :=
  if taxableIncome ≤ 0 ∨ brackets = [] then
    { taxable_income := 0
      tax := 0
      marginal_rate := ((brackets.head?.map (·.rate)).getD (1/10))
      effective_rate := 0
      bracket_breakdown := [] }
  else
    let breakdown := bracketBreakdown taxableIncome brackets
    let marginalRate := marginalRateLoop taxableIncome brackets (1/10)
    let tax := calculateWithBaseTax taxableIncome brackets
    { taxable_income := taxableIncome
      tax := tax
      marginal_rate := marginalRate
      effective_rate := tax / taxableIncome
      bracket_breakdown := breakdown }

/-- The spec's bracket-list invariant, along a chain starting at bracket
`b`: each ceiling equals the next floor (contiguous, non-overlapping),
floors strictly ascend, each base tax is the previous base tax plus the
previous rate times the floor gap, and the top bracket is unbounded. -/
def chainWF : TaxBracket → List TaxBracket → Prop
  | b, [] => b.ceiling = none
  | b, b' :: rest =>
    b.ceiling = some b'.floor ∧ b.floor < b'.floor ∧
      b'.base_tax = b.base_tax + b.rate * (b'.floor - b.floor) ∧ chainWF b' rest

instance chainWFDec : (b : TaxBracket) → (l : List TaxBracket) → Decidable (chainWF b l)
  | _, [] => by unfold chainWF; infer_instance
  | b, b' :: rest => by unfold chainWF; have := chainWFDec b' rest; infer_instance

/-- The spec's bracket-list invariant: non-empty, first floor `0` with
cumulative base tax `0` there, and well-formed chain from the first
bracket on. -/
def bracketsWF : List TaxBracket → Prop
  | [] => False
  | b :: rest => b.floor = 0 ∧ b.base_tax = 0 ∧ chainWF b rest

instance : (l : List TaxBracket) → Decidable (bracketsWF l)
  | [] => by unfold bracketsWF; infer_instance
  | _ :: _ => by unfold bracketsWF; infer_instance

/-- The unique bracket a well-formed chain attributes to income `x`:
walking the chain, the last bracket whose floor is `≤ x` (assuming
`b.floor ≤ x` on entry). -/
def lastLE (x : ℚ) : TaxBracket → List TaxBracket → TaxBracket
  | b, [] => b
  | b, b' :: rest => if b'.floor ≤ x then lastLE x b' rest else b

lemma chainWF_floor_lt {b : TaxBracket} {l : List TaxBracket} (h : chainWF b l) :
    ∀ c ∈ l, b.floor < c.floor := by
  induction l generalizing b with
  | nil => simp
  | cons b' rest ih =>
    obtain ⟨_, hlt, _, hchain⟩ := h
    intro c hc
    rcases List.mem_cons.mp hc with rfl | hm
    · exact hlt
    · exact hlt.trans (ih hchain c hm)

lemma lastLE_of_forall_lt {x : ℚ} {b : TaxBracket} {l : List TaxBracket}
    (h : ∀ c ∈ l, x < c.floor) : lastLE x b l = b := by
  cases l with
  | nil => rfl
  | cons b' rest =>
    have : ¬ b'.floor ≤ x := not_le.mpr (h b' (List.mem_cons_self _ _))
    simp [lastLE, this]

/-- Searching the reversed list for the first bracket with floor `≤ x`
finds the last such bracket of the chain. -/
lemma find?_reverse_eq_lastLE {x : ℚ} {b : TaxBracket} {l : List TaxBracket}
    (h : chainWF b l) (hx : b.floor ≤ x) :
    ((b :: l).reverse.find? fun c => decide (x ≥ c.floor)) = some (lastLE x b l) := by
  induction l generalizing b with
  | nil => simp [lastLE, hx]
  | cons b' rest ih =>
    obtain ⟨_, hlt, _, hchain⟩ := h
    have hrev : (b :: b' :: rest).reverse = (b' :: rest).reverse ++ [b] := by
      simp
    rw [hrev, List.find?_append]
    by_cases hb' : b'.floor ≤ x
    · rw [ih hchain hb']
      simp [lastLE, hb']
    · have hnone : ((b' :: rest).reverse.find? fun c => decide (x ≥ c.floor)) = none := by
        rw [List.find?_eq_none]
        intro c hc
        rcases List.mem_cons.mp (List.mem_reverse.mp hc) with rfl | hm
        · simpa using hb'
        · have := chainWF_floor_lt hchain c hm
          simp only [decide_eq_true_eq, ge_iff_le, not_le]
          exact lt_of_not_le hb' |>.trans this
      rw [hnone]
      simp [lastLE, hb', hx]

/-- On a well-formed chain whose first floor is `≤ x`, the base-tax
closed form evaluates the bracket `lastLE` picks. -/
lemma calculateWithBaseTax_eq_lastLE {x : ℚ} {b : TaxBracket} {l : List TaxBracket}
    (h : chainWF b l) (hx : b.floor ≤ x) :
    calculateWithBaseTax x (b :: l) =
      (lastLE x b l).base_tax + (x - (lastLE x b l).floor) * (lastLE x b l).rate := by
  unfold calculateWithBaseTax
  rw [find?_reverse_eq_lastLE h hx]
  rfl

lemma bracketBreakdown_eq_nil {x : ℚ} {l : List TaxBracket}
    (h : ∀ c ∈ l, x ≤ c.floor) : bracketBreakdown x l = [] := by
  induction l with
  | nil => rfl
  | cons b rest ih =>
    have hb : ¬ x > b.floor := not_lt.mpr (h b (List.mem_cons_self _ _))
    rw [bracketBreakdown, if_neg hb]
    exact ih fun c hc => h c (List.mem_cons_of_mem _ hc)

/-- Sum of the per-bracket taxes of the user-visible breakdown. -/
def breakdownSum (x : ℚ) (l : List TaxBracket) : ℚ :=
  ((bracketBreakdown x l).map (·.tax_paid)).sum

lemma breakdownSum_eq_zero {x : ℚ} {l : List TaxBracket}
    (h : ∀ c ∈ l, x ≤ c.floor) : breakdownSum x l = 0 := by
  unfold breakdownSum
  rw [bracketBreakdown_eq_nil h]
  rfl

/-- The heart of the closed-form / summed-form equivalence: along a
well-formed chain from `b` with `b.floor < x`, the closed form computed
at the bracket containing `x` equals `b`'s base tax plus the sum of the
per-bracket taxes of the breakdown. -/
lemma closed_eq_base_add_breakdownSum {b : TaxBracket} {l : List TaxBracket}
    (h : chainWF b l) {x : ℚ} (hx : b.floor < x) :
    (lastLE x b l).base_tax + (x - (lastLE x b l).floor) * (lastLE x b l).rate =
      b.base_tax + breakdownSum x (b :: l) := by
  induction l generalizing b with
  | nil =>
    have hceil : b.ceiling = none := h
    have hpos : x - b.floor > 0 := sub_pos.mpr hx
    rw [lastLE, breakdownSum, bracketBreakdown, if_pos hx, hceil]
    have hpos' : minCeiling x none - b.floor > 0 := hpos
    rw [if_pos hpos']
    simp [minCeiling, bracketBreakdown]
  | cons b' rest ih =>
    obtain ⟨hceil, hlt, hbase, hchain⟩ := h
    have hhead : breakdownSum x (b :: b' :: rest) =
        (min x b'.floor - b.floor) * b.rate + breakdownSum x (b' :: rest) := by
      unfold breakdownSum
      rw [bracketBreakdown, if_pos hx, hceil]
      have hinpos : minCeiling x (some b'.floor) - b.floor > 0 := by
        simp only [minCeiling, gt_iff_lt, sub_pos, lt_min_iff]
        exact ⟨hx, hlt⟩
      rw [if_pos hinpos]
      simp [minCeiling]
    by_cases hb' : b'.floor < x
    · have hle : b'.floor ≤ x := le_of_lt hb'
      have hstep := ih hchain hb'
      have hlast : lastLE x b (b' :: rest) = lastLE x b' rest := by
        simp [lastLE, hle]
      rw [hlast, hstep, hhead, min_eq_right hle, hbase]
      ring
    · have hxle : x ≤ b'.floor := not_lt.mp hb'
      have hrest0 : breakdownSum x (b' :: rest) = 0 := by
        apply breakdownSum_eq_zero
        intro c hc
        rcases List.mem_cons.mp hc with rfl | hm
        · exact hxle
        · exact hxle.trans (le_of_lt (chainWF_floor_lt hchain c hm))
      have hminx : min x b'.floor = x := min_eq_left hxle
      by_cases heq : b'.floor ≤ x
      · -- x = b'.floor exactly: lastLE steps into b' and stops there
        have hxeq : x = b'.floor := le_antisymm hxle heq
        have hlast : lastLE x b (b' :: rest) = b' := by
          rw [lastLE, if_pos heq]
          apply lastLE_of_forall_lt
          intro c hc
          exact hxeq ▸ chainWF_floor_lt hchain c hc
        rw [hlast, hhead, hrest0, hminx, hbase, hxeq]
        ring
      · have hlast : lastLE x b (b' :: rest) = b := by
          simp [lastLE, heq]
        rw [hlast, hhead, hrest0, hminx]
        ring

/-- Source `data/embedded.rs`, `build_federal_brackets_2024`: the embedded 2024
federal bracket tables, keyed by filing status (Qualifying Widow(er)
shares the Married-Filing-Jointly table). -/
def buildFederalBrackets2024 : FilingStatus → List TaxBracket
  | .Single =>
    [ ⟨0, some 11600, 0.10, 0⟩,
      ⟨11600, some 47150, 0.12, 1160⟩,
      ⟨47150, some 100525, 0.22, 5426⟩,
      ⟨100525, some 191950, 0.24, 17168.50⟩,
      ⟨191950, some 243725, 0.32, 39110.50⟩,
      ⟨243725, some 609350, 0.35, 55678.50⟩,
      ⟨609350, none, 0.37, 183647.25⟩ ]
  | .MarriedFilingJointly =>
    [ ⟨0, some 23200, 0.10, 0⟩,
      ⟨23200, some 94300, 0.12, 2320⟩,
      ⟨94300, some 201050, 0.22, 10852⟩,
      ⟨201050, some 383900, 0.24, 34337⟩,
      ⟨383900, some 487450, 0.32, 78221⟩,
      ⟨487450, some 731200, 0.35, 111357⟩,
      ⟨731200, none, 0.37, 196669.50⟩ ]
  | .MarriedFilingSeparately =>
    [ ⟨0, some 11600, 0.10, 0⟩,
      ⟨11600, some 47150, 0.12, 1160⟩,
      ⟨47150, some 100525, 0.22, 5426⟩,
      ⟨100525, some 191950, 0.24, 17168.50⟩,
      ⟨191950, some 243725, 0.32, 39110.50⟩,
      ⟨243725, some 365600, 0.35, 55678.50⟩,
      ⟨365600, none, 0.37, 98334.75⟩ ]
  | .HeadOfHousehold =>
    [ ⟨0, some 16550, 0.10, 0⟩,
      ⟨16550, some 63100, 0.12, 1655⟩,
      ⟨63100, some 100500, 0.22, 7241⟩,
      ⟨100500, some 191950, 0.24, 15469⟩,
      ⟨191950, some 243700, 0.32, 37417⟩,
      ⟨243700, some 609350, 0.35, 53977⟩,
      ⟨609350, none, 0.37, 181954.50⟩ ]
  | .QualifyingWidower =>
    [ ⟨0, some 23200, 0.10, 0⟩,
      ⟨23200, some 94300, 0.12, 2320⟩,
      ⟨94300, some 201050, 0.22, 10852⟩,
      ⟨201050, some 383900, 0.24, 34337⟩,
      ⟨383900, some 487450, 0.32, 78221⟩,
      ⟨487450, some 731200, 0.35, 111357⟩,
      ⟨731200, none, 0.37, 196669.50⟩ ]

/-- Source `data/embedded.rs`, `build_standard_deductions_2024`. -/
def buildStandardDeductions2024 : FilingStatus → ℚ
  | .Single => 14600
  | .MarriedFilingJointly => 29200
  | .MarriedFilingSeparately => 14600
  | .HeadOfHousehold => 21900
  | .QualifyingWidower => 29200

/-- Source `data/mod.rs` — FICA configuration for a year. -/
structure FicaConfig where
  social_security_rate : ℚ
  wage_base : ℚ
  medicare_rate : ℚ
  additional_medicare_rate : ℚ
  deriving DecidableEq, Repr

/-- Source `data/embedded.rs`, `build_fica_config_2024`. -/
def buildFicaConfig2024 : FicaConfig :=
  { social_security_rate := 0.062
    wage_base := 168600
    medicare_rate := 0.0145
    additional_medicare_rate := 0.009 }

/-- C1.  For every bracket list satisfying the bracket invariant and
every taxable income `x > 0`, the closed-form tax returned as the
headline `tax` of the federal calculator equals, within $0.01, the sum
of `tax_paid` over its `bracket_breakdown` (the per-bracket summed
form). -/
theorem federal_closed_form_eq_breakdown_sum
    {brackets : List TaxBracket} {x : ℚ}
    (hwf : bracketsWF brackets) (hx : 0 < x) :
    |(federalCalculate brackets x).tax -
      ((federalCalculate brackets x).bracket_breakdown.map (·.tax_paid)).sum| ≤ 1/100 := by
  match brackets, hwf with
  | b :: l, ⟨hf, hb, hchain⟩ =>
    have hcond : ¬ (x ≤ 0 ∨ (b :: l : List TaxBracket) = []) := by
      push_neg
      exact ⟨hx, by simp⟩
    have hxf : b.floor < x := by rw [hf]; exact hx
    rw [federalCalculate, if_neg hcond]
    dsimp only
    rw [calculateWithBaseTax_eq_lastLE hchain (le_of_lt hxf),
      closed_eq_base_add_breakdownSum hchain hxf, hb]
    simp [breakdownSum]

lemma lastLE_tax_ge_base {b : TaxBracket} {l : List TaxBracket} {y : ℚ}
    (h : chainWF b l) (hr : ∀ c ∈ b :: l, 0 ≤ c.rate) (hy : b.floor ≤ y) :
    b.base_tax ≤
      (lastLE y b l).base_tax + (y - (lastLE y b l).floor) * (lastLE y b l).rate := by
  induction l generalizing b with
  | nil =>
    have := mul_nonneg (sub_nonneg.mpr hy) (hr b (List.mem_cons_self _ _))
    simp only [lastLE]
    linarith
  | cons b' rest ih =>
    obtain ⟨_, hlt, hbase, hchain⟩ := h
    by_cases hb' : b'.floor ≤ y
    · have hstep := ih hchain (fun c hc => hr c (List.mem_cons_of_mem _ hc)) hb'
      have hgap : b.base_tax ≤ b'.base_tax := by
        have := mul_nonneg (hr b (List.mem_cons_self _ _)) (sub_nonneg.mpr hlt.le)
        rw [hbase]; linarith
      rw [lastLE, if_pos hb']
      exact hgap.trans hstep
    · have := mul_nonneg (sub_nonneg.mpr hy) (hr b (List.mem_cons_self _ _))
      rw [lastLE, if_neg hb']
      linarith

lemma lastLE_tax_monotone {b : TaxBracket} {l : List TaxBracket} {x y : ℚ}
    (h : chainWF b l) (hr : ∀ c ∈ b :: l, 0 ≤ c.rate) (hx : b.floor ≤ x) (hxy : x ≤ y) :
    (lastLE x b l).base_tax + (x - (lastLE x b l).floor) * (lastLE x b l).rate ≤
      (lastLE y b l).base_tax + (y - (lastLE y b l).floor) * (lastLE y b l).rate := by
  induction l generalizing b with
  | nil =>
    simp only [lastLE]
    have := mul_le_mul_of_nonneg_right (sub_le_sub_right hxy b.floor)
      (hr b (List.mem_cons_self _ _))
    linarith
  | cons b' rest ih =>
    obtain ⟨_, hlt, hbase, hchain⟩ := h
    have hrrest : ∀ c ∈ b' :: rest, 0 ≤ c.rate :=
      fun c hc => hr c (List.mem_cons_of_mem _ hc)
    by_cases hbx : b'.floor ≤ x
    · rw [lastLE, if_pos hbx, lastLE, if_pos (hbx.trans hxy)]
      exact ih hchain hrrest hbx
    · by_cases hby : b'.floor ≤ y
      · rw [lastLE, if_neg hbx, lastLE, if_pos hby]
        have hup : b.base_tax + (x - b.floor) * b.rate ≤ b'.base_tax := by
          have := mul_le_mul_of_nonneg_right
            (sub_le_sub_right (le_of_not_le hbx) b.floor)
            (hr b (List.mem_cons_self _ _))
          rw [hbase]; linarith
        exact hup.trans (lastLE_tax_ge_base hchain hrrest hby)
      · rw [lastLE, if_neg hbx, lastLE, if_neg hby]
        have := mul_le_mul_of_nonneg_right (sub_le_sub_right hxy b.floor)
          (hr b (List.mem_cons_self _ _))
        linarith

/-- When the income lies below every floor, the reverse search fails and
the evaluator falls back to the first bracket. -/
lemma calculateWithBaseTax_of_below {x : ℚ} {b : TaxBracket} {l : List TaxBracket}
    (hall : ∀ c ∈ b :: l, x < c.floor) :
    calculateWithBaseTax x (b :: l) = b.base_tax + (x - b.floor) * b.rate := by
  unfold calculateWithBaseTax
  have hnone : ((b :: l).reverse.find? fun c => decide (x ≥ c.floor)) = none := by
    rw [List.find?_eq_none]
    intro c hc
    have := hall c (List.mem_reverse.mp hc)
    simp only [decide_eq_true_eq, ge_iff_le, not_le]
    exact this
  rw [hnone]
  rfl

/-- C4.  For a fixed bracket list satisfying the bracket invariant with
non-negative rates, the tax computed by the bracket evaluator
(`calculate_with_base_tax`) is non-decreasing in the income. -/
theorem bracket_evaluator_monotone
    {brackets : List TaxBracket} {x y : ℚ}
    (hwf : bracketsWF brackets) (hr : ∀ c ∈ brackets, 0 ≤ c.rate) (hxy : x ≤ y) :
    calculateWithBaseTax x brackets ≤ calculateWithBaseTax y brackets := by
  match brackets, hwf with
  | b :: l, ⟨hf, hb, hchain⟩ =>
    by_cases hx0 : b.floor ≤ x
    · rw [calculateWithBaseTax_eq_lastLE hchain hx0,
        calculateWithBaseTax_eq_lastLE hchain (hx0.trans hxy)]
      exact lastLE_tax_monotone hchain hr hx0 hxy
    · have hallx : ∀ c ∈ b :: l, x < c.floor := by
        intro c hc
        rcases List.mem_cons.mp hc with rfl | hm
        · exact lt_of_not_le hx0
        · exact (lt_of_not_le hx0).trans (chainWF_floor_lt hchain c hm)
      rw [calculateWithBaseTax_of_below hallx]
      by_cases hy0 : b.floor ≤ y
      · rw [calculateWithBaseTax_eq_lastLE hchain hy0]
        have h1 : b.base_tax + (x - b.floor) * b.rate ≤ b.base_tax := by
          have := mul_nonpos_of_nonpos_of_nonneg
            (sub_nonpos.mpr (le_of_not_le hx0)) (hr b (List.mem_cons_self _ _))
          linarith
        exact h1.trans (lastLE_tax_ge_base hchain hr hy0)
      · have hally : ∀ c ∈ b :: l, y < c.floor := by
          intro c hc
          rcases List.mem_cons.mp hc with rfl | hm
          · exact lt_of_not_le hy0
          · exact (lt_of_not_le hy0).trans (chainWF_floor_lt hchain c hm)
        rw [calculateWithBaseTax_of_below hally]
        have := mul_le_mul_of_nonneg_right (sub_le_sub_right hxy b.floor)
          (hr b (List.mem_cons_self _ _))
        linarith

/-- Witness for C4: the embedded 2024 Single table is well-formed with
non-negative rates, and the evaluated tax at $40,000 is at most the tax
at $90,000. -/
theorem bracket_evaluator_monotone_witness :
    bracketsWF (buildFederalBrackets2024 .Single) ∧
      (∀ c ∈ buildFederalBrackets2024 .Single, 0 ≤ c.rate) ∧ (40000:ℚ) ≤ 90000 ∧
      calculateWithBaseTax 40000 (buildFederalBrackets2024 .Single) ≤
        calculateWithBaseTax 90000 (buildFederalBrackets2024 .Single) := by
  refine ⟨?_, ?_, by norm_num, ?_⟩
  · norm_num [bracketsWF, chainWF, buildFederalBrackets2024]
  · intro c hc
    simp only [buildFederalBrackets2024, List.mem_cons, List.not_mem_nil, or_false] at hc
    rcases hc with rfl | rfl | rfl | rfl | rfl | rfl | rfl <;> norm_num
  · exact bracket_evaluator_monotone
      (by norm_num [bracketsWF, chainWF, buildFederalBrackets2024])
      (by
        intro c hc
        simp only [buildFederalBrackets2024, List.mem_cons, List.not_mem_nil, or_false] at hc
        rcases hc with rfl | rfl | rfl | rfl | rfl | rfl | rfl <;> norm_num)
      (by norm_num)

/-- C7.  For taxable income `≤ 0` or an empty bracket list, the federal
calculator returns zero tax, an empty breakdown, a zero effective rate,
and a marginal rate equal to the first bracket's rate when the list is
non-empty, or the defined default `0.10` when it is empty. -/
theorem federal_nonpositive_or_empty_returns_zero
    {brackets : List TaxBracket} {x : ℚ} (h : x ≤ 0 ∨ brackets = []) :
    (federalCalculate brackets x).tax = 0 ∧
    (federalCalculate brackets x).bracket_breakdown = [] ∧
    (federalCalculate brackets x).effective_rate = 0 ∧
    (∀ b rest, brackets = b :: rest → (federalCalculate brackets x).marginal_rate = b.rate) ∧
    (brackets = [] → (federalCalculate brackets x).marginal_rate = 1/10) := by
  rw [federalCalculate, if_pos h]
  refine ⟨rfl, rfl, rfl, ?_, ?_⟩
  · rintro b rest rfl
    rfl
  · rintro rfl
    rfl

/-- Witness for C7: negative taxable income against the embedded Single
table yields the all-zero result with marginal rate `0.10`. -/
theorem federal_nonpositive_or_empty_returns_zero_witness :
    ((-5:ℚ) ≤ 0 ∨ buildFederalBrackets2024 .Single = []) ∧
    ((federalCalculate (buildFederalBrackets2024 .Single) (-5)).tax = 0 ∧
     (federalCalculate (buildFederalBrackets2024 .Single) (-5)).bracket_breakdown = [] ∧
     (federalCalculate (buildFederalBrackets2024 .Single) (-5)).effective_rate = 0 ∧
     (∀ b rest, buildFederalBrackets2024 .Single = b :: rest →
       (federalCalculate (buildFederalBrackets2024 .Single) (-5)).marginal_rate = b.rate) ∧
     (buildFederalBrackets2024 .Single = [] →
       (federalCalculate (buildFederalBrackets2024 .Single) (-5)).marginal_rate = 1/10)) :=
  ⟨Or.inl (by norm_num),
   federal_nonpositive_or_empty_returns_zero (Or.inl (by norm_num))⟩

/-- Source `models/tax.rs` — result of the FICA calculator. -/
structure FicaResult where
  social_security : ℚ
  social_security_wage_base : ℚ
  medicare : ℚ
  additional_medicare : ℚ
  total : ℚ
  deriving DecidableEq, Repr

namespace FicaCalculator

/-- Source `calculators/fica.rs`, `FicaCalculator::calculate_with_status`
(lines 25–65), with the FICA configuration for the requested year
already fetched from the data provider. -/
def calculateWithStatus (config : FicaConfig) (grossIncome : ℚ)
    (filingStatus : FilingStatus) : FicaResult :=
  let ssTaxable := min grossIncome config.wage_base
  let socialSecurity := ssTaxable * config.social_security_rate
  let medicare := grossIncome * config.medicare_rate
  let threshold : ℚ :=
    match filingStatus with
    | .Single | .HeadOfHousehold | .QualifyingWidower => 200000
    | .MarriedFilingJointly => 250000
    | .MarriedFilingSeparately => 125000
  let additionalMedicare :=
    if grossIncome > threshold then
      (grossIncome - threshold) * config.additional_medicare_rate
    else 0
  { social_security := socialSecurity
    social_security_wage_base := config.wage_base
    medicare := medicare
    additional_medicare := additionalMedicare
    total := socialSecurity + medicare + additionalMedicare }

/-- Source `calculators/fica.rs`, `FicaCalculator::calculate` (lines 20–22):
the status-less entry point, which uses the Single thresholds. -/
def calculate (config : FicaConfig) (grossIncome : ℚ) : FicaResult :=
  calculateWithStatus config grossIncome .Single

end FicaCalculator

/-- The surtax threshold of `calculate_with_status`, named for the
statement of C5. -/
def additionalMedicareThreshold : FilingStatus → ℚ
  | .Single | .HeadOfHousehold | .QualifyingWidower => 200000
  | .MarriedFilingJointly => 250000
  | .MarriedFilingSeparately => 125000

/-- C5.  For every gross income, filing status and payroll
configuration: Social Security tax is `min(gross, wage_base)` times the
base rate; Medicare tax is gross times the supplemental rate, uncapped;
the surtax is `max(0, gross − threshold)` times the surtax rate with the
threshold $200,000 for Single/HeadOfHousehold/QualifyingWidow(er),
$250,000 for MarriedFilingJointly and $125,000 for
MarriedFilingSeparately; the total is the sum of the three; and the
status-less entry point returns exactly the Single-status result. -/
theorem fica_components_and_default_status
    (config : FicaConfig) (g : ℚ) (fs : FilingStatus) :
    (FicaCalculator.calculateWithStatus config g fs).social_security =
      min g config.wage_base * config.social_security_rate ∧
    (FicaCalculator.calculateWithStatus config g fs).medicare =
      g * config.medicare_rate ∧
    (FicaCalculator.calculateWithStatus config g fs).additional_medicare =
      max 0 (g - additionalMedicareThreshold fs) * config.additional_medicare_rate ∧
    additionalMedicareThreshold .Single = 200000 ∧
    additionalMedicareThreshold .HeadOfHousehold = 200000 ∧
    additionalMedicareThreshold .QualifyingWidower = 200000 ∧
    additionalMedicareThreshold .MarriedFilingJointly = 250000 ∧
    additionalMedicareThreshold .MarriedFilingSeparately = 125000 ∧
    (FicaCalculator.calculateWithStatus config g fs).total =
      (FicaCalculator.calculateWithStatus config g fs).social_security +
        (FicaCalculator.calculateWithStatus config g fs).medicare +
        (FicaCalculator.calculateWithStatus config g fs).additional_medicare ∧
    FicaCalculator.calculate config g = FicaCalculator.calculateWithStatus config g .Single := by
  refine ⟨rfl, rfl, ?_, rfl, rfl, rfl, rfl, rfl, rfl, rfl⟩
  show (if g > additionalMedicareThreshold fs then
      (g - additionalMedicareThreshold fs) * config.additional_medicare_rate else 0) =
    max 0 (g - additionalMedicareThreshold fs) * config.additional_medicare_rate
  rcases le_or_lt g (additionalMedicareThreshold fs) with h | h
  · rw [if_neg (not_lt.mpr h), max_eq_left (sub_nonpos.mpr h), zero_mul]
  · rw [if_pos h, max_eq_right (sub_nonneg.mpr h.le)]

/-- Source `calculators/timeframe.rs` — calendar-period identifiers. -/
inductive Timeframe where
  | Annual
  | Monthly
  | BiWeekly
  | SemiMonthly
  | Weekly
  | Daily
  | Hourly
  deriving DecidableEq, Repr

/-- Source `Timeframe::divisor` (timeframe.rs lines 21–31): the fixed divisor
converting an annual amount to the period. -/
def Timeframe.divisor : Timeframe → ℚ
  | .Annual => 1
  | .Monthly => 12
  | .BiWeekly => 26
  | .SemiMonthly => 24
  | .Weekly => 52
  | .Daily => 260
  | .Hourly => 2080

/-- Source `models/income.rs` — an annual amount decomposed into calendar
periods.  The struct carries no semi-monthly field. -/
structure TimeframeIncome where
  annual : ℚ
  monthly : ℚ
  bi_weekly : ℚ
  weekly : ℚ
  daily : ℚ
  hourly : ℚ
  deriving DecidableEq, Repr

/-- Source `TimeframeIncome::from_annual` (income.rs lines 86–95): the default
breakdown, 40 hours/week and 5 days/week (daily divisor 260 = 52 × 5,
hourly divisor 2080 = 52 × 40). -/
def TimeframeIncome.fromAnnual (annual : ℚ) : TimeframeIncome :=
  { annual := annual
    monthly := annual / 12
    bi_weekly := annual / 26
    weekly := annual / 52
    daily := annual / 260
    hourly := annual / 2080 }

/-- Source `TimeframeIncome::from_annual_custom` (income.rs lines 98–112):
caller-supplied hours and days per week override the 40/5 default in the
daily and hourly divisors only. -/
def TimeframeIncome.fromAnnualCustom (annual hoursPerWeek daysPerWeek : ℚ) : TimeframeIncome :=
  let weeks : ℚ := 52
  { annual := annual
    monthly := annual / 12
    bi_weekly := annual / 26
    weekly := annual / weeks
    daily := annual / (weeks * daysPerWeek)
    hourly := annual / (weeks * hoursPerWeek) }

namespace TimeframeCalculator

/-- Source `TimeframeCalculator::to_annual` (timeframe.rs lines 65–67). -/
def toAnnual (amount : ℚ) (f : Timeframe) : ℚ :=
  amount * f.divisor

/-- Source `TimeframeCalculator::convert` (timeframe.rs lines 70–73): any
period to any other, through the annual amount. -/
def convert (amount : ℚ) (f t : Timeframe) : ℚ :=
  toAnnual amount f / t.divisor

end TimeframeCalculator

lemma Timeframe.divisor_pos : ∀ t : Timeframe, 0 < t.divisor := by
  intro t
  cases t <;> norm_num [Timeframe.divisor]

/-- C9.  Converting an amount from any timeframe to any other and back
reproduces the original amount (exactly, hence within any rounding
tolerance); the fixed divisors are annual 1, monthly 12, bi-weekly 26,
semi-monthly 24, weekly 52, daily 260 and hourly 2080. -/
theorem timeframe_convert_round_trip (amount : ℚ) (f t : Timeframe) :
    TimeframeCalculator.convert (TimeframeCalculator.convert amount f t) t f = amount ∧
    Timeframe.divisor .Annual = 1 ∧ Timeframe.divisor .Monthly = 12 ∧
    Timeframe.divisor .BiWeekly = 26 ∧ Timeframe.divisor .SemiMonthly = 24 ∧
    Timeframe.divisor .Weekly = 52 ∧ Timeframe.divisor .Daily = 260 ∧
    Timeframe.divisor .Hourly = 2080 := by
  refine ⟨?_, rfl, rfl, rfl, rfl, rfl, rfl, rfl⟩
  have hf := (Timeframe.divisor_pos f).ne.symm
  have ht := (Timeframe.divisor_pos t).ne.symm
  unfold TimeframeCalculator.convert TimeframeCalculator.toAnnual
  field_simp

/-- C10.  The custom timeframe breakdown agrees with the default
breakdown of the same annual amount on its annual, monthly, bi-weekly
and weekly fields — only the daily and hourly fields use the
caller-supplied schedule (and the struct carries no semi-monthly
field). -/
theorem custom_timeframe_differs_only_daily_hourly (a h d : ℚ) :
    (TimeframeIncome.fromAnnualCustom a h d).annual = (TimeframeIncome.fromAnnual a).annual ∧
    (TimeframeIncome.fromAnnualCustom a h d).monthly = (TimeframeIncome.fromAnnual a).monthly ∧
    (TimeframeIncome.fromAnnualCustom a h d).bi_weekly =
      (TimeframeIncome.fromAnnual a).bi_weekly ∧
    (TimeframeIncome.fromAnnualCustom a h d).weekly = (TimeframeIncome.fromAnnual a).weekly ∧
    (TimeframeIncome.fromAnnualCustom a h d).daily = a / (52 * d) ∧
    (TimeframeIncome.fromAnnualCustom a h d).hourly = a / (52 * h) :=
  ⟨rfl, rfl, rfl, rfl, rfl, rfl⟩

/-- Source `models/state.rs` — the 50 states plus the federal district. -/
inductive USState where
  | Alabama | Alaska | Arizona | Arkansas | California | Colorado | Connecticut
  | Delaware | Florida | Georgia | Hawaii | Idaho | Illinois | Indiana | Iowa
  | Kansas | Kentucky | Louisiana | Maine | Maryland | Massachusetts | Michigan
  | Minnesota | Mississippi | Missouri | Montana | Nebraska | Nevada
  | NewHampshire | NewJersey | NewMexico | NewYork | NorthCarolina | NorthDakota
  | Ohio | Oklahoma | Oregon | Pennsylvania | RhodeIsland | SouthCarolina
  | SouthDakota | Tennessee | Texas | Utah | Vermont | Virginia | Washington
  | WashingtonDC | WestVirginia | Wisconsin | Wyoming
  deriving DecidableEq, Repr

/-- Source `USState::code` — the two-letter code. -/
def USState.code : USState → String
  | .Alabama => "AL" | .Alaska => "AK" | .Arizona => "AZ" | .Arkansas => "AR"
  | .California => "CA" | .Colorado => "CO" | .Connecticut => "CT"
  | .Delaware => "DE" | .Florida => "FL" | .Georgia => "GA" | .Hawaii => "HI"
  | .Idaho => "ID" | .Illinois => "IL" | .Indiana => "IN" | .Iowa => "IA"
  | .Kansas => "KS" | .Kentucky => "KY" | .Louisiana => "LA" | .Maine => "ME"
  | .Maryland => "MD" | .Massachusetts => "MA" | .Michigan => "MI"
  | .Minnesota => "MN" | .Mississippi => "MS" | .Missouri => "MO"
  | .Montana => "MT" | .Nebraska => "NE" | .Nevada => "NV"
  | .NewHampshire => "NH" | .NewJersey => "NJ" | .NewMexico => "NM"
  | .NewYork => "NY" | .NorthCarolina => "NC" | .NorthDakota => "ND"
  | .Ohio => "OH" | .Oklahoma => "OK" | .Oregon => "OR" | .Pennsylvania => "PA"
  | .RhodeIsland => "RI" | .SouthCarolina => "SC" | .SouthDakota => "SD"
  | .Tennessee => "TN" | .Texas => "TX" | .Utah => "UT" | .Vermont => "VT"
  | .Virginia => "VA" | .Washington => "WA" | .WashingtonDC => "DC"
  | .WestVirginia => "WV" | .Wisconsin => "WI" | .Wyoming => "WY"

/-- Source `USState::has_no_income_tax`. -/
def USState.hasNoIncomeTax : USState → Bool
  | .Alaska | .Florida | .Nevada | .NewHampshire | .SouthDakota | .Tennessee
  | .Texas | .Washington | .Wyoming => true
  | _ => false

/-- Source `USState::has_flat_tax`. -/
def USState.hasFlatTax : USState → Bool
  | .Colorado | .Illinois | .Indiana | .Kentucky | .Massachusetts | .Michigan
  | .NorthCarolina | .Pennsylvania | .Utah => true
  | _ => false

/-- Source `USState::has_sdi`. -/
def USState.hasSdi : USState → Bool
  | .California | .Hawaii | .NewJersey | .NewYork | .RhodeIsland => true
  | _ => false

/-- Source `USState::has_local_tax`. -/
def USState.hasLocalTax : USState → Bool
  | .Alabama | .Colorado | .Delaware | .Indiana | .Iowa | .Kentucky | .Maryland
  | .Michigan | .Missouri | .NewJersey | .NewYork | .Ohio | .Oregon
  | .Pennsylvania | .WestVirginia => true
  | _ => false

/-- Source `data/mod.rs` — the three jurisdiction tax types. -/
inductive StateTaxType where
  | NoTax
  | FlatRate
  | Progressive
  deriving DecidableEq, Repr

/-- Source `data/mod.rs` — local-tax estimation data. -/
structure LocalTaxInfo where
  has_local_tax : Bool
  average_rate : Option ℚ
  deriving DecidableEq, Repr

/-- Source `data/mod.rs` — a jurisdiction configuration.  The Rust `HashMap`
fields keyed by filing-status strings are modelled as association
lists. -/
structure StateConfig where
  state_code : String
  tax_type : StateTaxType
  flat_rate : Option ℚ
  brackets : List (String × List TaxBracket)
  standard_deduction : Option (List (String × ℚ))
  sdi_rate : Option ℚ
  sdi_wage_base : Option ℚ
  local_tax_info : Option LocalTaxInfo
  deriving DecidableEq, Repr

/-- Source `models/tax.rs` — result of the state calculator. -/
structure StateTaxResult where
  state_code : String
  taxable_income : ℚ
  income_tax : ℚ
  local_tax : ℚ
  sdi : ℚ
  total_tax : ℚ
  effective_rate : ℚ
  bracket_breakdown : Option (List BracketAmount)
  deriving DecidableEq, Repr

/-- Source `data/mod.rs` — the capability interface the calculators consume:
the four lookup queries, keyed by filing status / jurisdiction and
year. -/
structure TaxDataProvider where
  federalBrackets : FilingStatus → ℕ → List TaxBracket
  standardDeduction : FilingStatus → ℕ → ℚ
  ficaConfig : ℕ → FicaConfig
  stateConfig : USState → ℕ → StateConfig

namespace StateTaxCalculator

/-- Source `StateTaxCalculator::calculate_progressive` (state.rs lines 92–125):
the same bracket loop as the federal breakdown, with the total
accumulated as the sum of the pushed per-bracket taxes. -/
def calculateProgressive (taxableIncome : ℚ) (brackets : List TaxBracket) :
    ℚ × Option (List BracketAmount) :=
  if taxableIncome ≤ 0 ∨ brackets = [] then (0, none)
  else (breakdownSum taxableIncome brackets, some (bracketBreakdown taxableIncome brackets))

/-- Source `StateTaxCalculator::calculate_sdi` (state.rs lines 128–143). -/
def calculateSdi (income : ℚ) (s : USState) (config : StateConfig) : ℚ :=
  if ¬ s.hasSdi then 0
  else min income (config.sdi_wage_base.getD income) * config.sdi_rate.getD 0

/-- Source `StateTaxCalculator::estimate_local_tax` (state.rs lines 146–163). -/
def estimateLocalTax (income : ℚ) (s : USState) (config : StateConfig) : ℚ :=
  if ¬ s.hasLocalTax then 0
  else ((config.local_tax_info.bind (·.average_rate)).map (fun rate => income * rate)).getD 0

/-- Source `StateTaxCalculator::calculate` (state.rs lines 20–89): early
all-zero return for no-income-tax states, otherwise flat-rate or
progressive dispatch plus SDI and estimated local tax. -/
def calculate (provider : TaxDataProvider) (taxableIncome : ℚ) (s : USState)
    (fs : FilingStatus) (year : ℕ) : StateTaxResult :=
  if s.hasNoIncomeTax then
    { state_code := s.code
      taxable_income := taxableIncome
      income_tax := 0
      local_tax := 0
      sdi := 0
      total_tax := 0
      effective_rate := 0
      bracket_breakdown := none }
  else
    let config := provider.stateConfig s year
    let p :=
      if s.hasFlatTax then (taxableIncome * config.flat_rate.getD 0, none)
      else
        calculateProgressive
          (max (taxableIncome - (config.standard_deduction.bind (·.lookup fs.asStr)).getD 0) 0)
          ((config.brackets.lookup fs.asStr).getD [])
    let sdi := calculateSdi taxableIncome s config
    let localTax := estimateLocalTax taxableIncome s config
    let totalTax := p.1 + sdi + localTax
    { state_code := s.code
      taxable_income := taxableIncome
      income_tax := p.1
      local_tax := localTax
      sdi := sdi
      total_tax := totalTax
      effective_rate := if taxableIncome > 0 then totalTax / taxableIncome else 0
      bracket_breakdown := p.2 }

end StateTaxCalculator

/-- A `StateConfig` with only a code and tax type set and every other
field at its `Default` (the `..Default::default()` spreads of
embedded.rs). -/
def noTaxConfig (code : String) : StateConfig :=
  { state_code := code
    tax_type := .NoTax
    flat_rate := none
    brackets := []
    standard_deduction := none
    sdi_rate := none
    sdi_wage_base := none
    local_tax_info := none }

/-- Source `data/embedded.rs`, `flat_tax_config`. -/
def flatTaxConfig (code : String) (rate : ℚ) : StateConfig :=
  { state_code := code
    tax_type := .FlatRate
    flat_rate := some rate
    brackets := []
    standard_deduction := none
    sdi_rate := none
    sdi_wage_base := none
    local_tax_info := none }

/-- Source `data/embedded.rs`, `california_config`. -/
def californiaConfig : StateConfig :=
  { state_code := "CA"
    tax_type := .Progressive
    flat_rate := none
    brackets :=
      [ ("single",
          [ ⟨0, some 10412, 0.01, 0⟩,
            ⟨10412, some 24684, 0.02, 104.12⟩,
            ⟨24684, some 38959, 0.04, 389.56⟩,
            ⟨38959, some 54081, 0.06, 960.56⟩,
            ⟨54081, some 68350, 0.08, 1867.88⟩,
            ⟨68350, some 349137, 0.093, 3009.40⟩,
            ⟨349137, some 418961, 0.103, 29122.59⟩,
            ⟨418961, some 698271, 0.113, 36314.46⟩,
            ⟨698271, some 1000000, 0.123, 67876.49⟩,
            ⟨1000000, none, 0.133, 104989.12⟩ ]),
        ("married_filing_jointly",
          [ ⟨0, some 20824, 0.01, 0⟩,
            ⟨20824, some 49368, 0.02, 208.24⟩,
            ⟨49368, some 77918, 0.04, 779.12⟩,
            ⟨77918, some 108162, 0.06, 1921.12⟩,
            ⟨108162, some 136700, 0.08, 3735.76⟩,
            ⟨136700, some 698274, 0.093, 6018.80⟩,
            ⟨698274, some 837922, 0.103, 58245.18⟩,
            ⟨837922, some 1396542, 0.113, 72628.92⟩,
            ⟨1396542, some 2000000, 0.123, 135752.98⟩,
            ⟨2000000, none, 0.133, 209978.24⟩ ]) ]
    standard_deduction := some [("single", 5363), ("married_filing_jointly", 10726)]
    sdi_rate := some 0.011
    sdi_wage_base := some 153164
    local_tax_info := none }

/-- Source `data/embedded.rs`, `new_york_config`. -/
def newYorkConfig : StateConfig :=
  { state_code := "NY"
    tax_type := .Progressive
    flat_rate := none
    brackets :=
      [ ("single",
          [ ⟨0, some 8500, 0.04, 0⟩,
            ⟨8500, some 11700, 0.045, 340⟩,
            ⟨11700, some 13900, 0.0525, 484⟩,
            ⟨13900, some 80650, 0.055, 599.50⟩,
            ⟨80650, some 215400, 0.06, 4270.75⟩,
            ⟨215400, some 1077550, 0.0685, 12355.75⟩,
            ⟨1077550, some 5000000, 0.0965, 71413.03⟩,
            ⟨5000000, some 25000000, 0.103, 449929.28⟩,
            ⟨25000000, none, 0.109, 2509929.28⟩ ]) ]
    standard_deduction := some [("single", 8000), ("married_filing_jointly", 16050)]
    sdi_rate := none
    sdi_wage_base := none
    local_tax_info := some { has_local_tax := true, average_rate := some 0.035 } }

/-- Source `data/embedded.rs`, `arizona_config`. -/
def arizonaConfig : StateConfig :=
  { state_code := "AZ"
    tax_type := .Progressive
    flat_rate := none
    brackets :=
      [ ("single",
          [ ⟨0, some 28653, 0.0255, 0⟩,
            ⟨28653, none, 0.0298, 730.65⟩ ]) ]
    standard_deduction := none
    sdi_rate := none
    sdi_wage_base := none
    local_tax_info := none }

/-- Source `data/embedded.rs`, `georgia_config`. -/
def georgiaConfig : StateConfig :=
  { state_code := "GA"
    tax_type := .Progressive
    flat_rate := none
    brackets :=
      [ ("single",
          [ ⟨0, some 750, 0.01, 0⟩,
            ⟨750, some 2250, 0.02, 7.50⟩,
            ⟨2250, some 3750, 0.03, 37.50⟩,
            ⟨3750, some 5250, 0.04, 82.50⟩,
            ⟨5250, some 7000, 0.05, 142.50⟩,
            ⟨7000, none, 0.0549, 230⟩ ]) ]
    standard_deduction := some [("single", 12000), ("married_filing_jointly", 24000)]
    sdi_rate := none
    sdi_wage_base := none
    local_tax_info := none }

/-- Source `data/embedded.rs`, `minnesota_config`. -/
def minnesotaConfig : StateConfig :=
  { state_code := "MN"
    tax_type := .Progressive
    flat_rate := none
    brackets :=
      [ ("single",
          [ ⟨0, some 30070, 0.0535, 0⟩,
            ⟨30070, some 98760, 0.068, 1608.75⟩,
            ⟨98760, some 183340, 0.0785, 6279.67⟩,
            ⟨183340, none, 0.0985, 12919.20⟩ ]) ]
    standard_deduction := some [("single", 14575), ("married_filing_jointly", 29150)]
    sdi_rate := none
    sdi_wage_base := none
    local_tax_info := none }

/-- Source `data/embedded.rs`, `new_jersey_config`. -/
def newJerseyConfig : StateConfig :=
  { state_code := "NJ"
    tax_type := .Progressive
    flat_rate := none
    brackets :=
      [ ("single",
          [ ⟨0, some 20000, 0.014, 0⟩,
            ⟨20000, some 35000, 0.0175, 280⟩,
            ⟨35000, some 40000, 0.035, 542.50⟩,
            ⟨40000, some 75000, 0.05525, 717.50⟩,
            ⟨75000, some 500000, 0.0637, 2651.25⟩,
            ⟨500000, some 1000000, 0.0897, 29724.00⟩,
            ⟨1000000, none, 0.1075, 74574.00⟩ ]) ]
    standard_deduction := none
    sdi_rate := some 0.0014
    sdi_wage_base := none
    local_tax_info := none }

/-- Source `data/embedded.rs`, `oregon_config`. -/
def oregonConfig : StateConfig :=
  { state_code := "OR"
    tax_type := .Progressive
    flat_rate := none
    brackets :=
      [ ("single",
          [ ⟨0, some 4050, 0.0475, 0⟩,
            ⟨4050, some 10200, 0.0675, 192.38⟩,
            ⟨10200, some 125000, 0.0875, 607.50⟩,
            ⟨125000, none, 0.099, 10652.50⟩ ]) ]
    standard_deduction := some [("single", 2605), ("married_filing_jointly", 5210)]
    sdi_rate := none
    sdi_wage_base := none
    local_tax_info := none }

/-- Source `data/embedded.rs`, `virginia_config`. -/
def virginiaConfig : StateConfig :=
  { state_code := "VA"
    tax_type := .Progressive
    flat_rate := none
    brackets :=
      [ ("single",
          [ ⟨0, some 3000, 0.02, 0⟩,
            ⟨3000, some 5000, 0.03, 60⟩,
            ⟨5000, some 17000, 0.05, 120⟩,
            ⟨17000, none, 0.0575, 720⟩ ]) ]
    standard_deduction := some [("single", 8500), ("married_filing_jointly", 17000)]
    sdi_rate := none
    sdi_wage_base := none
    local_tax_info := none }

/-- Source `data/embedded.rs`, `default_brackets`: a single unbounded 5%
bracket under the `"single"` key. -/
def defaultBrackets : List (String × List TaxBracket) :=
  [("single", [⟨0, none, 0.05, 0⟩])]

/-- The `StateConfig` the `build_state_configs_2024` loop inserts for
every state not configured explicitly: progressive with the default
brackets. -/
def defaultStateConfig (s : USState) : StateConfig :=
  { state_code := s.code
    tax_type := .Progressive
    flat_rate := none
    brackets := defaultBrackets
    standard_deduction := none
    sdi_rate := none
    sdi_wage_base := none
    local_tax_info := none }

/-- Source `data/embedded.rs`, `build_state_configs_2024`: the per-state
configuration map, as a total function (the map covers all 51 states, so
the `unwrap_or_else` NoTax fallback of `EmbeddedTaxData::state_config`
is unreachable). -/
def buildStateConfigs2024 : USState → StateConfig
  | .Alaska => noTaxConfig "AK"
  | .Florida => noTaxConfig "FL"
  | .Nevada => noTaxConfig "NV"
  | .NewHampshire => noTaxConfig "NH"
  | .SouthDakota => noTaxConfig "SD"
  | .Tennessee => noTaxConfig "TN"
  | .Texas => noTaxConfig "TX"
  | .Washington => noTaxConfig "WA"
  | .Wyoming => noTaxConfig "WY"
  | .Colorado => flatTaxConfig "CO" 0.044
  | .Illinois => flatTaxConfig "IL" 0.0495
  | .Indiana => flatTaxConfig "IN" 0.0305
  | .Kentucky => flatTaxConfig "KY" 0.04
  | .Massachusetts => flatTaxConfig "MA" 0.05
  | .Michigan => flatTaxConfig "MI" 0.0425
  | .NorthCarolina => flatTaxConfig "NC" 0.0525
  | .Pennsylvania => flatTaxConfig "PA" 0.0307
  | .Utah => flatTaxConfig "UT" 0.0465
  | .California => californiaConfig
  | .NewYork => newYorkConfig
  | .Arizona => arizonaConfig
  | .Georgia => georgiaConfig
  | .Minnesota => minnesotaConfig
  | .NewJersey => newJerseyConfig
  | .Oregon => oregonConfig
  | .Virginia => virginiaConfig
  | s => defaultStateConfig s

/-- Source `data/embedded.rs`, `EmbeddedTaxData`: the embedded 2024 data set as
a `TaxDataProvider`.  The year parameter is ignored, as in the source;
the per-status maps contain every key, so the `unwrap_or` fallbacks of
the accessors are unreachable and the total functions above are their
exact semantics. -/
def EmbeddedTaxData : TaxDataProvider :=
  { federalBrackets := fun fs _ => buildFederalBrackets2024 fs
    standardDeduction := fun fs _ => buildStandardDeductions2024 fs
    ficaConfig := fun _ => buildFicaConfig2024
    stateConfig := fun s _ => buildStateConfigs2024 s }

/-- Source `engine.rs` — input for a complete tax calculation. -/
structure TaxCalculationInput where
  gross_income : ℚ
  filing_status : FilingStatus
  state : USState
  pre_tax_deductions : ℚ
  post_tax_deductions : ℚ
  traditional_401k : ℚ
  roth_401k : ℚ
  deriving DecidableEq, Repr

/-- Source `models/income.rs` — gross/net summary of a calculation. -/
structure CalculatedIncome where
  gross : ℚ
  net : ℚ
  timeframes : TimeframeIncome
  take_home_percentage : ℚ
  deriving DecidableEq, Repr

/-- Source `models/tax.rs` — the aggregated tax breakdown. -/
structure TaxBreakdown where
  federal : FederalTaxResult
  state : StateTaxResult
  fica : FicaResult
  total_taxes : ℚ
  effective_rate : ℚ
  deriving DecidableEq, Repr

/-- Source `models/tax.rs` — the per-component effective-rate summary. -/
structure EffectiveRates where
  federal : ℚ
  state : ℚ
  fica : ℚ
  total : ℚ
  deriving DecidableEq, Repr

/-- Source `engine.rs` — the complete calculation result. -/
structure TaxCalculationResult where
  income : CalculatedIncome
  tax_breakdown : TaxBreakdown
  effective_rates : EffectiveRates
  deriving DecidableEq, Repr

namespace TaxCalculationEngine

/-- Source `TaxCalculationEngine::calculate` (engine.rs lines 89–165): the
single-pass pipeline — pre-tax totals, federal taxable after the
standard deduction, the three calculators, total taxes, post-tax
totals, net income, timeframes, take-home percentage and effective
rates. -/
def calculate (provider : TaxDataProvider) (year : ℕ)
    (input : TaxCalculationInput) : TaxCalculationResult :=
  let totalPreTax := input.pre_tax_deductions + input.traditional_401k
  let stdDeduction := provider.standardDeduction input.filing_status year
  let federalTaxable := max (input.gross_income - totalPreTax - stdDeduction) 0
  let federalResult :=
    federalCalculate (provider.federalBrackets input.filing_status year) federalTaxable
  let stateTaxable := input.gross_income - totalPreTax
  let stateResult :=
    StateTaxCalculator.calculate provider stateTaxable input.state input.filing_status year
  let ficaResult :=
    FicaCalculator.calculateWithStatus (provider.ficaConfig year)
      input.gross_income input.filing_status
  let totalTaxes := federalResult.tax + stateResult.total_tax + ficaResult.total
  let totalPostTax := input.post_tax_deductions + input.roth_401k
  let netIncome := input.gross_income - totalTaxes - totalPreTax - totalPostTax
  let timeframes := TimeframeIncome.fromAnnual netIncome
  let takeHomePct :=
    if input.gross_income > 0 then netIncome / input.gross_income * 100 else 0
  let effectiveRates : EffectiveRates :=
    if input.gross_income > 0 then
      { federal := federalResult.tax / input.gross_income
        state := stateResult.total_tax / input.gross_income
        fica := ficaResult.total / input.gross_income
        total := totalTaxes / input.gross_income }
    else
      { federal := 0, state := 0, fica := 0, total := 0 }
  { income :=
      { gross := input.gross_income
        net := netIncome
        timeframes := timeframes
        take_home_percentage := takeHomePct }
    tax_breakdown :=
      { federal := federalResult
        state := stateResult
        fica := ficaResult
        total_taxes := totalTaxes
        effective_rate := effectiveRates.total }
    effective_rates := effectiveRates }

end TaxCalculationEngine

/-- C2.  For every data provider, year and calculation input: the
federal calculator is run on
`max(0, gross − (pre_tax + traditional_401k) − standard_deduction)`;
the FICA calculator is run on the full gross income; and net income is
`gross − (federal.tax + state.total_tax + fica.total) − (pre_tax +
traditional_401k) − (post_tax + roth_401k)`. -/
theorem engine_deduction_ordering_and_net
    (provider : TaxDataProvider) (year : ℕ) (input : TaxCalculationInput) :
    (TaxCalculationEngine.calculate provider year input).tax_breakdown.federal =
      federalCalculate (provider.federalBrackets input.filing_status year)
        (max 0 (input.gross_income -
          (input.pre_tax_deductions + input.traditional_401k) -
          provider.standardDeduction input.filing_status year)) ∧
    (TaxCalculationEngine.calculate provider year input).tax_breakdown.fica =
      FicaCalculator.calculateWithStatus (provider.ficaConfig year)
        input.gross_income input.filing_status ∧
    (TaxCalculationEngine.calculate provider year input).income.net =
      input.gross_income -
        ((TaxCalculationEngine.calculate provider year input).tax_breakdown.federal.tax +
          (TaxCalculationEngine.calculate provider year input).tax_breakdown.state.total_tax +
          (TaxCalculationEngine.calculate provider year input).tax_breakdown.fica.total) -
        (input.pre_tax_deductions + input.traditional_401k) -
        (input.post_tax_deductions + input.roth_401k) := by
  refine ⟨?_, rfl, rfl⟩
  dsimp only [TaxCalculationEngine.calculate]
  rw [max_comm]

/-- C8.  For every data provider, year and input with positive gross
income, the total effective rate equals the sum of the federal, state
and FICA effective rates — exactly, hence within the claimed 0.001. -/
theorem effective_rate_sum_invariant
    (provider : TaxDataProvider) (year : ℕ) (input : TaxCalculationInput)
    (h : 0 < input.gross_income) :
    |(TaxCalculationEngine.calculate provider year input).effective_rates.total -
      ((TaxCalculationEngine.calculate provider year input).effective_rates.federal +
        (TaxCalculationEngine.calculate provider year input).effective_rates.state +
        (TaxCalculationEngine.calculate provider year input).effective_rates.fica)| ≤
      1/1000 := by
  dsimp only [TaxCalculationEngine.calculate]
  rw [if_pos h]
  dsimp only
  rw [div_add_div_same, div_add_div_same, sub_self, abs_zero]
  norm_num

/-- Witness for C8: the property at a concrete $100,000 Single Texas
input against the embedded 2024 data. -/
theorem effective_rate_sum_invariant_witness :
    (0:ℚ) <
      ({ gross_income := 100000, filing_status := .Single, state := .Texas,
         pre_tax_deductions := 0, post_tax_deductions := 0,
         traditional_401k := 0, roth_401k := 0 } : TaxCalculationInput).gross_income ∧
    |(TaxCalculationEngine.calculate EmbeddedTaxData 2024
        { gross_income := 100000, filing_status := .Single, state := .Texas,
          pre_tax_deductions := 0, post_tax_deductions := 0,
          traditional_401k := 0, roth_401k := 0 }).effective_rates.total -
      ((TaxCalculationEngine.calculate EmbeddedTaxData 2024
          { gross_income := 100000, filing_status := .Single, state := .Texas,
            pre_tax_deductions := 0, post_tax_deductions := 0,
            traditional_401k := 0, roth_401k := 0 }).effective_rates.federal +
        (TaxCalculationEngine.calculate EmbeddedTaxData 2024
          { gross_income := 100000, filing_status := .Single, state := .Texas,
            pre_tax_deductions := 0, post_tax_deductions := 0,
            traditional_401k := 0, roth_401k := 0 }).effective_rates.state +
        (TaxCalculationEngine.calculate EmbeddedTaxData 2024
          { gross_income := 100000, filing_status := .Single, state := .Texas,
            pre_tax_deductions := 0, post_tax_deductions := 0,
            traditional_401k := 0, roth_401k := 0 }).effective_rates.fica)| ≤
      1/1000 :=
  ⟨by norm_num, effective_rate_sum_invariant EmbeddedTaxData 2024 _ (by norm_num)⟩

/-- The early return of `StateTaxCalculator::calculate` for states whose
`has_no_income_tax` capability flag is set. -/
lemma state_calculate_no_income_tax {s : USState} (h : s.hasNoIncomeTax = true)
    (provider : TaxDataProvider) (x : ℚ) (fs : FilingStatus) (year : ℕ) :
    StateTaxCalculator.calculate provider x s fs year =
      { state_code := s.code
        taxable_income := x
        income_tax := 0
        local_tax := 0
        sdi := 0
        total_tax := 0
        effective_rate := 0
        bracket_breakdown := none } := by
  rw [StateTaxCalculator.calculate, if_pos h]

/-- In the embedded data set, only states with the no-income-tax flag
carry a `NoTax` configuration, so a `NoTax` tax type implies the flag. -/
lemma embedded_noTax_config_implies_flag (s : USState) :
    (buildStateConfigs2024 s).tax_type = .NoTax → s.hasNoIncomeTax = true := by
  cases s <;> decide

/-- C6.  For every jurisdiction whose configuration in the (total —
every jurisdiction is recognized, unrecognized ones would fall back to
`NoTax` as well) embedded data set has tax type `NoTax`, and every
taxable income, filing status and year, the state calculator returns
zero income tax, zero SDI, zero local tax, zero total tax, zero
effective rate and no bracket breakdown. -/
theorem noTax_jurisdiction_all_outputs_zero
    (s : USState) (x : ℚ) (fs : FilingStatus) (year : ℕ)
    (h : (EmbeddedTaxData.stateConfig s year).tax_type = .NoTax) :
    (StateTaxCalculator.calculate EmbeddedTaxData x s fs year).income_tax = 0 ∧
    (StateTaxCalculator.calculate EmbeddedTaxData x s fs year).sdi = 0 ∧
    (StateTaxCalculator.calculate EmbeddedTaxData x s fs year).local_tax = 0 ∧
    (StateTaxCalculator.calculate EmbeddedTaxData x s fs year).total_tax = 0 ∧
    (StateTaxCalculator.calculate EmbeddedTaxData x s fs year).effective_rate = 0 ∧
    (StateTaxCalculator.calculate EmbeddedTaxData x s fs year).bracket_breakdown = none := by
  have hflag : s.hasNoIncomeTax = true := embedded_noTax_config_implies_flag s h
  rw [state_calculate_no_income_tax hflag]
  exact ⟨rfl, rfl, rfl, rfl, rfl, rfl⟩

/-- Witness for C6: Texas, income $100,000, Single, 2024. -/
theorem noTax_jurisdiction_all_outputs_zero_witness :
    (EmbeddedTaxData.stateConfig .Texas 2024).tax_type = .NoTax ∧
    ((StateTaxCalculator.calculate EmbeddedTaxData 100000 .Texas .Single 2024).income_tax = 0 ∧
     (StateTaxCalculator.calculate EmbeddedTaxData 100000 .Texas .Single 2024).sdi = 0 ∧
     (StateTaxCalculator.calculate EmbeddedTaxData 100000 .Texas .Single 2024).local_tax = 0 ∧
     (StateTaxCalculator.calculate EmbeddedTaxData 100000 .Texas .Single 2024).total_tax = 0 ∧
     (StateTaxCalculator.calculate EmbeddedTaxData 100000 .Texas .Single 2024).effective_rate
       = 0 ∧
     (StateTaxCalculator.calculate EmbeddedTaxData 100000 .Texas .Single 2024).bracket_breakdown
       = none) :=
  ⟨by decide, noTax_jurisdiction_all_outputs_zero .Texas 100000 .Single 2024 (by decide)⟩

lemma fica_zero_income (config : FicaConfig) (fs : FilingStatus)
    (hwb : 0 ≤ config.wage_base) :
    FicaCalculator.calculateWithStatus config 0 fs =
      { social_security := 0
        social_security_wage_base := config.wage_base
        medicare := 0
        additional_medicare := 0
        total := 0 } := by
  cases fs <;>
    simp [FicaCalculator.calculateWithStatus, min_eq_left hwb]

lemma calculateSdi_zero_income (s : USState) (config : StateConfig)
    (hwb : 0 ≤ config.sdi_wage_base.getD 0) :
    StateTaxCalculator.calculateSdi 0 s config = 0 := by
  unfold StateTaxCalculator.calculateSdi
  split
  · rfl
  · cases hcfg : config.sdi_wage_base with
    | none => simp [hcfg]
    | some wb =>
      rw [hcfg] at hwb
      simp only [hcfg, Option.getD_some] at *
      rw [min_eq_left hwb, zero_mul]

lemma estimateLocalTax_zero_income (s : USState) (config : StateConfig) :
    StateTaxCalculator.estimateLocalTax 0 s config = 0 := by
  unfold StateTaxCalculator.estimateLocalTax
  split
  · rfl
  · cases h : config.local_tax_info.bind (·.average_rate) <;> simp [h]

/-- At taxable income `0`, every branch of the state calculator yields
the all-zero result (given non-negative configured deduction and SDI
wage base). -/
lemma state_calculate_zero_income (provider : TaxDataProvider) (s : USState)
    (fs : FilingStatus) (year : ℕ)
    (hsd : 0 ≤ ((provider.stateConfig s year).standard_deduction.bind
      (·.lookup fs.asStr)).getD 0)
    (hwb : 0 ≤ (provider.stateConfig s year).sdi_wage_base.getD 0) :
    StateTaxCalculator.calculate provider 0 s fs year =
      { state_code := s.code
        taxable_income := 0
        income_tax := 0
        local_tax := 0
        sdi := 0
        total_tax := 0
        effective_rate := 0
        bracket_breakdown := none } := by
  by_cases hno : s.hasNoIncomeTax = true
  · exact state_calculate_no_income_tax hno provider 0 fs year
  · unfold StateTaxCalculator.calculate
    rw [if_neg hno]
    dsimp only
    rw [calculateSdi_zero_income s _ hwb, estimateLocalTax_zero_income]
    have hmax : max (0 - ((provider.stateConfig s year).standard_deduction.bind
        (·.lookup fs.asStr)).getD 0) 0 = 0 :=
      max_eq_right (by linarith)
    by_cases hflat : s.hasFlatTax = true
    · rw [if_pos hflat]
      norm_num
    · rw [if_neg hflat, hmax]
      rw [StateTaxCalculator.calculateProgressive, if_pos (Or.inl le_rfl)]
      norm_num

/-- An engine input with the given gross income and no deductions or
retirement contributions. -/
def plainInput (g : ℚ) (fs : FilingStatus) (s : USState) : TaxCalculationInput :=
  { gross_income := g
    filing_status := fs
    state := s
    pre_tax_deductions := 0
    post_tax_deductions := 0
    traditional_401k := 0
    roth_401k := 0 }

lemma embedded_std_ded_nonneg : ∀ (fs : FilingStatus),
    0 ≤ buildStandardDeductions2024 fs := by
  intro fs
  cases fs <;> norm_num [buildStandardDeductions2024]

lemma embedded_state_std_ded_nonneg (s : USState) (fs : FilingStatus) :
    0 ≤ ((buildStateConfigs2024 s).standard_deduction.bind
      (·.lookup fs.asStr)).getD 0 := by
  cases s <;> cases fs <;> decide

lemma embedded_sdi_wage_base_nonneg (s : USState) :
    0 ≤ (buildStateConfigs2024 s).sdi_wage_base.getD 0 := by
  cases s <;> decide

/-- Counterexample to C3 as stated: at gross income `0` with a $100
post-tax deduction (Single, Texas), every tax is zero yet net income is
−$100, not `0` — the engine always subtracts the deduction and
contribution fields from net income. -/
theorem zero_income_any_deductions_net_nonzero :
    (TaxCalculationEngine.calculate EmbeddedTaxData 2024
      { gross_income := 0, filing_status := .Single, state := .Texas,
        pre_tax_deductions := 0, post_tax_deductions := 100,
        traditional_401k := 0, roth_401k := 0 }).income.net = -100 ∧
    (TaxCalculationEngine.calculate EmbeddedTaxData 2024
      { gross_income := 0, filing_status := .Single, state := .Texas,
        pre_tax_deductions := 0, post_tax_deductions := 100,
        traditional_401k := 0, roth_401k := 0 }).income.net ≠ 0 := by
  have hstate := state_calculate_no_income_tax (s := .Texas) (by decide)
    EmbeddedTaxData (0 - (0 + 0)) .Single 2024
  have hfica := fica_zero_income (EmbeddedTaxData.ficaConfig 2024) .Single (by norm_num [EmbeddedTaxData, buildFicaConfig2024])
  constructor <;>
    (unfold TaxCalculationEngine.calculate
     dsimp only
     rw [hstate, hfica]
     norm_num [EmbeddedTaxData, buildStandardDeductions2024, federalCalculate])

/-- C3 (amended).  For every filing status, state and year, the engine
run on gross income `0` with all four deduction/contribution fields `0`
(against the embedded data) yields net income `0`, total taxes `0` and
all four effective rates `0`. -/
theorem zero_income_zero_deductions_all_zero
    (fs : FilingStatus) (s : USState) (year : ℕ) :
    (TaxCalculationEngine.calculate EmbeddedTaxData year (plainInput 0 fs s)).income.net = 0 ∧
    (TaxCalculationEngine.calculate EmbeddedTaxData year
      (plainInput 0 fs s)).tax_breakdown.total_taxes = 0 ∧
    (TaxCalculationEngine.calculate EmbeddedTaxData year
      (plainInput 0 fs s)).effective_rates.federal = 0 ∧
    (TaxCalculationEngine.calculate EmbeddedTaxData year
      (plainInput 0 fs s)).effective_rates.state = 0 ∧
    (TaxCalculationEngine.calculate EmbeddedTaxData year
      (plainInput 0 fs s)).effective_rates.fica = 0 ∧
    (TaxCalculationEngine.calculate EmbeddedTaxData year
      (plainInput 0 fs s)).effective_rates.total = 0 := by
  have hstate := state_calculate_zero_income EmbeddedTaxData s fs year
    (embedded_state_std_ded_nonneg s fs) (embedded_sdi_wage_base_nonneg s)
  have hfica := fica_zero_income (EmbeddedTaxData.ficaConfig year) fs (by norm_num [EmbeddedTaxData, buildFicaConfig2024])
  have hfedtaxable :
      max ((0:ℚ) - (0 + 0) - EmbeddedTaxData.standardDeduction fs year) 0 = 0 :=
    max_eq_right (by
      have := embedded_std_ded_nonneg fs
      show (0:ℚ) - (0 + 0) - buildStandardDeductions2024 fs ≤ 0
      linarith)
  have hstate0 : (0:ℚ) - (0 + 0) = 0 := by norm_num
  refine ⟨?_, ?_, ?_, ?_, ?_, ?_⟩ <;>
    (unfold TaxCalculationEngine.calculate
     dsimp only [plainInput]
     rw [hfedtaxable, hstate0, hstate, hfica, federalCalculate,
       if_pos (Or.inl le_rfl)]
     norm_num)

/-- Witness for C1: the embedded 2024 Single bracket table satisfies the
invariant and the property holds at income $50,000. -/
theorem federal_closed_form_eq_breakdown_sum_witness :
    bracketsWF (buildFederalBrackets2024 .Single) ∧ (0:ℚ) < 50000 ∧
      |(federalCalculate (buildFederalBrackets2024 .Single) 50000).tax -
        ((federalCalculate (buildFederalBrackets2024 .Single) 50000).bracket_breakdown.map
          (·.tax_paid)).sum| ≤ 1/100 := by
  refine ⟨?_, by norm_num, ?_⟩
  · norm_num [bracketsWF, chainWF, buildFederalBrackets2024]
  · exact federal_closed_form_eq_breakdown_sum
      (by norm_num [bracketsWF, chainWF, buildFederalBrackets2024]) (by norm_num)

end TaxCore
